import Mathlib

/-!
Verification of the ForestSens API client upload-and-orchestration core
(`ForestSensAPI/api.py`).

The Python source is shallowly embedded: pure path/string manipulation is
translated to Lean string functions; filesystem access, the object-storage
transport and the job-control HTTP calls are oracles supplied as record
fields (`LocalFS`, `Transport`, response arguments); Python exceptions are
`Except PyError`; output (progress prints, log lines, file writes) is
collected into explicit event lists.  The thread pool of `upload_files` is
modelled by running the dispatched workers sequentially in dispatch order;
the spec declares result order not significant, and no theorem below
depends on completion order.
-/

/-- Python exception values observable in this module.  `str(e)` is modelled
by `pyStr`. -/
inductive PyError where
  | importError
  | indexError
  | valueError (msg : String)
  | zeroDivisionError
  | osError (msg : String)
  | transportError (msg : String)
  | requestError (msg : String)
deriving DecidableEq, Repr

/-- Model of Python `str(e)` for the exceptions above.  Oracle-carried
exceptions (OS, transport, HTTP) carry their message verbatim. -/
def pyStr : PyError → String
  | .importError => "OCI SDK is not available. Please install `oci` to use this feature."
  | .indexError => "list index out of range"
  | .valueError m => m
  | .zeroDivisionError => "division by zero"
  | .osError m => m
  | .transportError m => m
  | .requestError m => m

deriving instance DecidableEq for Except

/-- Single-character split with the behaviour of Python `s.split(sep)` for a
one-character separator: the empty string gives `[""]`, and n separators
give n+1 (possibly empty) parts.  Structurally recursive so that concrete
inputs evaluate by kernel reduction. -/
def split_char (sep : Char) : List Char → List (List Char)
  | [] => [[]]
  | c :: cs =>
    match split_char sep cs with
    | [] => [[]]
    | h :: t => if c = sep then [] :: h :: t else (c :: h) :: t

/-- Python `sep.join(parts)` for a one-character separator. -/
def join_char (sep : Char) : List (List Char) → List Char
  | [] => []
  | [p] => p
  | p :: ps => p ++ sep :: join_char sep ps

/-- Whether the first list is a prefix of the second (Python
`s.startswith(pat)`). -/
def starts_with_chars : List Char → List Char → Bool
  | [], _ => true
  | _ :: _, [] => false
  | p :: ps, c :: cs => p = c && starts_with_chars ps cs

/-- Model of `os.path.basename` on POSIX: the part after the last slash. -/
def os_basename (p : String) : String :=
  match (split_char '/' p.toList).getLast? with
  | some s => String.mk s
  | none => p

/-- Model of Python `s.strip("/")`: drop leading and trailing slash
characters. -/
def py_strip_slashes (s : String) : String :=
  String.mk (((s.toList.dropWhile (· == '/')).reverse.dropWhile (· == '/')).reverse)

/-- Model of Python `s.rstrip("/")`: drop trailing slash characters. -/
def py_rstrip_slashes (s : String) : String :=
  String.mk ((s.toList.reverse.dropWhile (· == '/')).reverse)

/-- The suffix of a character list after the first occurrence of the
scheme separator `://`, if any. -/
def after_scheme_sep : List Char → Option (List Char)
  | [] => none
  | c :: cs =>
    if c = ':' then
      match cs with
      | '/' :: '/' :: rest => some rest
      | _ => after_scheme_sep cs
    else after_scheme_sep cs

/-- Model of `urllib.parse.urlparse(url).path` for URLs without query or
fragment components, the only shape this client receives (pre-authenticated
object-storage URLs): everything after the scheme separator and the
authority component; when no scheme separator is present the whole string
is the path. -/
def urlparse_path (url : String) : String :=
  match after_scheme_sep url.toList with
  | none => url
  | some after => String.mk (after.dropWhile (· != '/'))

/-- The `path_parts` list of `upload_files`:
`urlparse(upload_url).path.strip("/").split("/")`. -/
def path_segments (upload_url : String) : List String :=
  (split_char '/' (py_strip_slashes (urlparse_path upload_url)).toList).map String.mk

/-- The upload-target parse phase of `upload_files` (api.py lines 199-204):
`namespace = path_parts[1]`, `bucket = path_parts[3]`, and the key prefix
`"/".join(path_parts[5:]).rstrip("/") + "/"`.  Python list indexing out of
range raises `IndexError`, modelled by the `none` branches. -/
def parse_upload_target (upload_url : String) :
    Except PyError (String × String × String) :=
  let path_parts := path_segments upload_url
  match path_parts.get? 1, path_parts.get? 3 with
  | some ns, some bucket =>
    .ok (ns, bucket,
      py_rstrip_slashes
        (String.mk (join_char '/' ((path_parts.drop 5).map String.toList))) ++ "/")
  | _, _ => .error .indexError

/-- Model of `os.path.relpath(path, start)` for the one way the source uses
it: `path` is produced by `os.walk(start)` joins, hence lies under `start`. -/
def os_relpath (path start : String) : String :=
  if starts_with_chars (start.toList ++ ['/']) path.toList then
    String.mk (path.toList.drop (start.toList.length + 1))
  else path

/-- Python `rel.replace("\\", "/")`: the pattern is a single character, so
the replacement is a character map. -/
def replace_backslashes (s : String) : String :=
  String.mk (s.toList.map (fun c => if c = '\\' then '/' else c))

/-- The state of a `SimpleProgress` tracker (api.py lines 170-186). -/
structure SimpleProgress where
  total : Int
  uploaded : Int
  filename : String
deriving DecidableEq, Repr

/-- One line printed by a tracker: either a percentage line from
`__call__` or the terminal line from `done`. -/
inductive ProgressEvent where
  | line (filename : String) (percent : ℚ)
  | done (filename : String) (success : Bool)
deriving DecidableEq, Repr

/-- `SimpleProgress.__init__(total_size, filename)`. -/
def SimpleProgress.init (total_size : Int) (filename : String) : SimpleProgress :=
  ⟨total_size, 0, filename⟩

/-- `SimpleProgress.__call__(bytes_uploaded)`: accumulate, then compute
`(uploaded / total) * 100` and print one progress line.  Python true
division raises `ZeroDivisionError` when `total == 0`; otherwise the float
quotient is modelled as a rational. -/
def SimpleProgress.call (p : SimpleProgress) (bytes_uploaded : Int) :
    Except PyError (SimpleProgress × ProgressEvent) :=
  let p₂ : SimpleProgress := { p with uploaded := p.uploaded + bytes_uploaded }
  if p.total = 0 then
    .error .zeroDivisionError
  else
    .ok (p₂, .line p.filename (((p₂.uploaded : ℚ) / (p.total : ℚ)) * 100))

/-- `SimpleProgress.done(success)`: print the terminal line.  It performs no
arithmetic and cannot raise, so it is a total function. -/
def SimpleProgress.done (p : SimpleProgress) (success : Bool) : ProgressEvent :=
  .done p.filename success

/-- Replay a sequence of transport progress callbacks through a tracker,
collecting the lines printed before any exception.  An exception from one
callback propagates (into the worker's `except` clause) and stops the
replay; the lines already printed remain printed. -/
def runCallbacks (p : SimpleProgress) (deltas : List Int) :
    List ProgressEvent × Except PyError SimpleProgress :=
  match deltas with
  | [] => ([], .ok p)
  | d :: ds =>
    match p.call d with
    | .error e => ([], .error e)
    | .ok (p₂, ev) =>
      let rest := runCallbacks p₂ ds
      (ev :: rest.1, rest.2)

/-- The per-file result dictionary built by `upload_one`
(api.py lines 212-241). -/
structure UploadResult where
  file : String
  success : Bool
  etag : Option String
  error : Option String
deriving DecidableEq, Repr

/-- Filesystem oracle: `os.path.isdir`, the flattened file list produced by
the `os.walk` comprehension (full paths, in traversal order), and
`os.path.getsize` (raising `OSError` on a missing path, carried as the
message string). -/
structure LocalFS where
  isDir : String → Bool
  walk : String → List String
  getsize : String → Except String Nat

/-- Object-storage transport oracle: the byte deltas the upload manager
reports to the progress callback while transferring a given local file, and
`upload_file(namespace, bucket, object_name, file_path)` returning the etag
header (`response.headers.get("etag")`, possibly absent) or raising. -/
structure Transport where
  progressDeltas : String → List Int
  upload : String → String → String → String → Except String (Option String)

/-- The worker `upload_one(file_path, object_name)` (api.py lines 212-241).
Returns the result dictionary together with the progress lines printed.
The Python body wraps everything in `try ... except Exception`, so the
embedding is a total function: `getsize`, the progress callbacks and the
transport can all fail, and every failure lands in the `except` branch,
which builds a fresh one-byte tracker and prints its FAILED terminal
line. -/
def upload_one (fs : LocalFS) (tr : Transport) (ns bucket : String)
    (file_path object_name : String) : UploadResult × List ProgressEvent :=
  let filename := os_basename file_path
  match fs.getsize file_path with
  | .error e =>
    (⟨filename, false, none, some (pyStr (.osError e))⟩,
     [ProgressEvent.done filename false])
  | .ok file_size =>
    let progress := SimpleProgress.init (file_size : Int) filename
    match runCallbacks progress (tr.progressDeltas file_path) with
    | (evs, .error e) =>
      (⟨filename, false, none, some (pyStr e)⟩,
       evs ++ [ProgressEvent.done filename false])
    | (evs, .ok _progress₂) =>
      match tr.upload ns bucket object_name file_path with
      | .error e =>
        (⟨filename, false, none, some (pyStr (.transportError e))⟩,
         evs ++ [ProgressEvent.done filename false])
      | .ok etag =>
        (⟨filename, true, etag, none⟩,
         evs ++ [ProgressEvent.done filename true])

/-- Defined from the words of the spec (§3), for comparison with the code:
the value the spec says `upload` hands back to its caller.  The source has
no such type — `upload_files` is annotated `-> None` and has no `return`
statement — so the session log below records the Python return value as an
`Option UploadSessionOutcome` that is always `none`. -/
structure UploadSessionOutcome where
  results : List UploadResult
  failureCount : Nat
deriving DecidableEq, Repr

/-- Everything one `upload_files` call produces when it completes without
raising: the `(file_path, object_name)` units dispatched (in traversal
order), the `UploadResult` of each worker, the progress lines printed, and
the value returned to the caller. -/
structure SessionLog where
  units : List (String × String)
  results : List UploadResult
  events : List ProgressEvent
  retVal : Option UploadSessionOutcome
deriving DecidableEq, Repr

/-- `upload_files(upload_url, local_path)` (api.py lines 188-269).  Raises
`ImportError` when the `oci` module is absent, then parses the target URL
(which can raise `IndexError`), then either walks the directory and
dispatches one worker per file, or runs a single worker on `local_path`
itself.  The workers of the directory branch run in a thread pool in the
source; they are replayed here sequentially in dispatch order.  The Python
function returns `None` in both branches (`retVal := none`); failures are
only logged. -/
def upload_files (oci_available : Bool) (fs : LocalFS) (tr : Transport)
    (upload_url : String) (local_path : String) : Except PyError SessionLog :=
  if oci_available = false then
    .error .importError
  else
    match parse_upload_target upload_url with
    | .error e => .error e
    | .ok (ns, bucket, pfx) =>
      if fs.isDir local_path then
        let all_files := fs.walk local_path
        let units := all_files.map (fun fp =>
          (fp, pfx ++ replace_backslashes (os_relpath fp local_path)))
        let outs := units.map (fun u => upload_one fs tr ns bucket u.1 u.2)
        .ok ⟨units, outs.map (fun o => o.1), (outs.map (fun o => o.2)).flatten, none⟩
      else
        let filename := os_basename local_path
        let object_name := pfx ++ filename
        let out := upload_one fs tr ns bucket local_path object_name
        .ok ⟨[(local_path, object_name)], [out.1], out.2, none⟩

/-- The progress lines a call of `upload_files` prints.  Both raise sites of
`upload_files` (the missing-`oci` check and the URL indexing) precede every
print statement, so a raising call prints nothing. -/
def upload_files_output (oci_available : Bool) (fs : LocalFS) (tr : Transport)
    (upload_url : String) (local_path : String) : List ProgressEvent :=
  match upload_files oci_available fs tr upload_url local_path with
  | .ok log => log.events
  | .error _ => []

/-- The shared shape of the six thin HTTP wrappers (`get_all_batches`,
`get_algorithms`, `init_batch`, `start_batch`, `get_batch_status`,
`get_results`): perform one request, `raise_for_status`, return the JSON
body; any `RequestException` is logged and re-raised.  The request and its
outcome are an oracle argument.  The module-level `oci` global is in scope
in every method but read by none of them, which the unused
`oci_available` parameter records. -/
def request_wrapped (response : Except String α) : Except PyError α :=
  match response with
  | .ok j => .ok j
  | .error e => .error (.requestError e)

/-- `get_all_batches(n)` (api.py lines 65-75). -/
def get_all_batches (_oci_available : Bool) (response : Except String α) :
    Except PyError α :=
  request_wrapped response

/-- `get_algorithms()` (api.py lines 77-87). -/
def get_algorithms (_oci_available : Bool) (response : Except String α) :
    Except PyError α :=
  request_wrapped response

/-- `init_batch(name, algorithm)` (api.py lines 89-103). -/
def init_batch (_oci_available : Bool) (response : Except String α) :
    Except PyError α :=
  request_wrapped response

/-- `start_batch(batch_id)` (api.py lines 105-115). -/
def start_batch (_oci_available : Bool) (response : Except String α) :
    Except PyError α :=
  request_wrapped response

/-- `get_batch_status(batch_id)` (api.py lines 117-127). -/
def get_batch_status (_oci_available : Bool) (response : Except String α) :
    Except PyError α :=
  request_wrapped response

/-- `get_results(batch_id)` (api.py lines 129-139). -/
def get_results (_oci_available : Bool) (response : Except String α) :
    Except PyError α :=
  request_wrapped response

/-- The JSON body `get_results` hands to `download_results`:
`results.get("result_files", [])` (file names) and `results.get("par_url")`
(absent key modelled as `none`; Python also treats an empty string as
falsy, checked separately). -/
structure ResultsJson where
  result_files : List String
  par_url : Option String
deriving DecidableEq, Repr

/-- Observable actions of `download_results`: log lines and file writes. -/
inductive DlEvent where
  | logInfo (msg : String)
  | write (path : String) (content : String)
  | logError (msg : String)
deriving DecidableEq, Repr

/-- Model of `urllib.parse.urljoin(base, ref)` for a plain relative `ref`
(a bare file name, the only shape this client joins): replace everything
after the last slash of `base` with `ref`. -/
def url_join (base ref : String) : String :=
  String.mk (join_char '/' (split_char '/' base.toList).dropLast ++ '/' :: ref.toList)

/-- Model of `os.path.join(a, b)` on POSIX for the shapes used here. -/
def os_path_join (a b : String) : String :=
  if starts_with_chars ['/'] b.toList then b
  else if a.toList = [] then b
  else if a.toList.getLast? = some '/' then String.mk (a.toList ++ b.toList)
  else String.mk (a.toList ++ '/' :: b.toList)

/-- One iteration of the download loop (api.py lines 154-168): log the
attempt, then either write the fetched content and log success, or — when
the fetch raises a `RequestException` — log the failure and write
nothing.  The `try`/`except` is entirely inside the loop body, so one
file's failure never stops the loop. -/
def download_file_events (fetch : String → Except String String)
    (par_url output_dir filename : String) : List DlEvent :=
  let file_url := url_join par_url filename
  let local_path := os_path_join output_dir filename
  DlEvent.logInfo ("Downloading " ++ filename ++ "...") ::
    (match fetch file_url with
     | .ok content =>
       [DlEvent.write local_path content,
        DlEvent.logInfo ("Saved to " ++ local_path)]
     | .error e =>
       [DlEvent.logError ("Failed to download " ++ filename ++ ": " ++ e)])

/-- `download_results(batch_id, output_dir)` (api.py lines 141-168): call
`get_results` (whose failure propagates), raise `ValueError` when the PAR
URL is absent or empty, create the output directory, then run the
per-file loop, returning the events it emits. -/
def download_results (oci_available : Bool)
    (results_response : Except String ResultsJson)
    (fetch : String → Except String String) (output_dir : String) :
    Except PyError (List DlEvent) :=
  match get_results oci_available results_response with
  | .error e => .error e
  | .ok results =>
    match results.par_url with
    | none => .error (.valueError "No PAR URL found for this batch.")
    | some pu =>
      if pu = "" then .error (.valueError "No PAR URL found for this batch.")
      else
        .ok ((results.result_files.map
          (download_file_events fetch pu output_dir)).flatten)

/-- The fields `run_batch` reads from the `init_batch` response. -/
structure BatchInfo where
  object_storage_url : String
  batch_id : String
deriving DecidableEq, Repr

/-- The four external steps of `run_batch`, in the order the source
attempts them. -/
inductive BatchStep where
  | create
  | upload
  | start
  | status
deriving DecidableEq, Repr

/-- The dictionary `run_batch` returns (api.py lines 298-302). -/
structure RunSummary where
  batch_id : String
  start_response : String
  status : String
deriving DecidableEq, Repr

/-- `run_batch(algorithm, input_path, name)` (api.py lines 271-302): a
straight-line sequence init_batch → upload_files → start_batch →
get_batch_status with no exception handling, so the first raising step
aborts the rest.  The returned trace records which external steps were
attempted, in order. -/
def run_batch (oci_available : Bool) (fs : LocalFS) (tr : Transport)
    (init_response : Except String BatchInfo)
    (start_response : String → Except String String)
    (status_response : String → Except String String)
    (input_path : String) : List BatchStep × Except PyError RunSummary :=
  match init_batch oci_available init_response with
  | .error e => ([BatchStep.create], .error e)
  | .ok bi =>
    match upload_files oci_available fs tr bi.object_storage_url input_path with
    | .error e => ([BatchStep.create, BatchStep.upload], .error e)
    | .ok _log =>
      match start_batch oci_available (start_response bi.batch_id) with
      | .error e => ([BatchStep.create, BatchStep.upload, BatchStep.start], .error e)
      | .ok sr =>
        match get_batch_status oci_available (status_response bi.batch_id) with
        | .error e =>
          ([BatchStep.create, BatchStep.upload, BatchStep.start, BatchStep.status],
           .error e)
        | .ok st =>
          ([BatchStep.create, BatchStep.upload, BatchStep.start, BatchStep.status],
           .ok ⟨bi.batch_id, sr, st⟩)

/-! ### Concrete fixtures used by counterexamples and witnesses -/

/-- A transport that reports no progress callbacks and always succeeds. -/
def trOk : Transport := ⟨fun _ => [], fun _ _ _ _ => .ok (some "etag-1")⟩

/-- A transport that reports no progress callbacks and always raises. -/
def trBoom : Transport := ⟨fun _ => [], fun _ _ _ _ => .error "boom"⟩

/-- A filesystem holding a single regular 4-byte file at every path. -/
def fsSingle : LocalFS := ⟨fun _ => false, fun _ => [], fun _ => .ok 4⟩

/-- A filesystem on which every path is missing: not a directory, and
`os.path.getsize` raises. -/
def fsMissing : LocalFS :=
  ⟨fun _ => false, fun _ => [],
   fun _ => .error "[Errno 2] No such file or directory: missing.txt"⟩

/-- A directory `D` holding the two files `a.txt` and `sub/a.txt`, whose
basenames collide. -/
def fsDup : LocalFS :=
  ⟨fun p => p == "D", fun _ => ["D/a.txt", "D/sub/a.txt"], fun _ => .ok 1⟩

/-- The directory of the spec's concrete key-computation scenario:
`D` holding `a.txt` and `sub/b.txt`. -/
def fsTree : LocalFS :=
  ⟨fun p => p == "D", fun _ => ["D/a.txt", "D/sub/b.txt"], fun _ => .ok 3⟩

/-- A well-formed five-segment upload target URL with key prefix `p/`. -/
def urlFive : String := "https://host/n/ns/b/bucket/o/p/"

/-! ### C10 -/

/-- C10: when the oci library is not importable, every call of
`upload_files` raises ImportError immediately — for every target URL (even
a malformed one), every local path, every filesystem and transport, and
with zero progress output, showing the check precedes URL parsing,
filesystem access and result production — while each of the other public
operations computes the same value whether or not oci is available. -/
theorem oci_unavailable_gate :
    (∀ (fs : LocalFS) (tr : Transport) (url lp : String),
      upload_files false fs tr url lp = Except.error PyError.importError) ∧
    (∀ (fs : LocalFS) (tr : Transport) (url lp : String),
      upload_files_output false fs tr url lp = []) ∧
    (∀ r : Except String String, get_all_batches false r = get_all_batches true r) ∧
    (∀ r : Except String String, get_algorithms false r = get_algorithms true r) ∧
    (∀ r : Except String String, init_batch false r = init_batch true r) ∧
    (∀ r : Except String String, start_batch false r = start_batch true r) ∧
    (∀ r : Except String String, get_batch_status false r = get_batch_status true r) ∧
    (∀ r : Except String String, get_results false r = get_results true r) ∧
    (∀ (resp : Except String ResultsJson) (fetch : String → Except String String)
       (od : String),
      download_results false resp fetch od = download_results true resp fetch od) :=
  ⟨fun _ _ _ _ => rfl, fun _ _ _ _ => rfl, fun _ => rfl, fun _ => rfl, fun _ => rfl,
   fun _ => rfl, fun _ => rfl, fun _ => rfl, fun _ _ _ => rfl⟩

/-! ### C9 -/

/-- C9 counterexample: the claim says the tracker never fails for any total
byte size, but a tracker constructed with total 0 — exactly what
`SimpleProgress(file_size, ...)` builds for an empty file — raises
ZeroDivisionError on its first increment call (`(0 / 0) * 100`). -/
theorem simple_progress_zero_total_cex :
    (SimpleProgress.init 0 "a.txt").call 0 = Except.error PyError.zeroDivisionError := rfl

/-- Replaying any callback sequence through a tracker with nonzero total
never raises; the uploaded counter accumulates the deltas and the total and
filename fields are preserved. -/
theorem runCallbacks_ok (p : SimpleProgress) (deltas : List Int) (h : p.total ≠ 0) :
    ∃ evs q, runCallbacks p deltas = (evs, Except.ok q) ∧
      q.uploaded = p.uploaded + deltas.sum ∧ q.total = p.total ∧
      q.filename = p.filename := by
  induction deltas generalizing p with
  | nil => exact ⟨[], p, rfl, by simp, rfl, rfl⟩
  | cons d ds ih =>
    have hc : p.call d = Except.ok ({ p with uploaded := p.uploaded + d },
        ProgressEvent.line p.filename
          (((p.uploaded + d : Int) : ℚ) / (p.total : ℚ) * 100)) := by
      unfold SimpleProgress.call
      rw [if_neg h]
    obtain ⟨evs, q, hrun, hu, ht, hf⟩ := ih { p with uploaded := p.uploaded + d } h
    refine ⟨ProgressEvent.line p.filename
      (((p.uploaded + d : Int) : ℚ) / (p.total : ℚ) * 100) :: evs, q, ?_, ?_, ht, hf⟩
    · simp only [runCallbacks, hc, hrun]
    · simp only [hu, List.sum_cons]
      omega

/-- C9 (amended): a tracker with nonzero total never fails: every increment
call succeeds, accumulates the uploaded bytes, and recomputes the
percentage as `uploaded / total * 100`; any sequence of increments followed
by the (total, never-raising) done call goes through without raising.  With
total 0 the first increment raises, see the counterexample. -/
theorem simple_progress_accumulation :
    (∀ (p : SimpleProgress) (d : Int), p.total ≠ 0 → 0 ≤ d →
      p.call d = Except.ok ({ p with uploaded := p.uploaded + d },
        ProgressEvent.line p.filename
          (((p.uploaded + d : Int) : ℚ) / (p.total : ℚ) * 100))) ∧
    (∀ (total : Int) (fn : String) (deltas : List Int), total ≠ 0 →
      (∀ d ∈ deltas, 0 ≤ d) →
      ∃ evs q, runCallbacks (SimpleProgress.init total fn) deltas =
          (evs, Except.ok q) ∧
        q.uploaded = deltas.sum ∧ q.total = total ∧
        q.done true = ProgressEvent.done fn true) := by
  constructor
  · intro p d h _
    unfold SimpleProgress.call
    rw [if_neg h]
  · intro total fn deltas h _
    obtain ⟨evs, q, hrun, hu, ht, hf⟩ := runCallbacks_ok (SimpleProgress.init total fn) deltas h
    refine ⟨evs, q, hrun, by simpa [SimpleProgress.init] using hu, ht, ?_⟩
    unfold SimpleProgress.done
    rw [hf]
    rfl

/-- C9 witness: the amended theorem at total 7, filename `w`, increment
sequence `[3, 4]` of non-negative deltas. -/
theorem simple_progress_accumulation_witness :
    (7 : Int) ≠ 0 ∧ (∀ d ∈ ([3, 4] : List Int), 0 ≤ d) ∧
    (∃ evs q, runCallbacks (SimpleProgress.init 7 "w") [3, 4] =
        (evs, Except.ok q) ∧
      q.uploaded = ([3, 4] : List Int).sum ∧ q.total = 7 ∧
      q.done true = ProgressEvent.done "w" true) :=
  ⟨by decide, by decide,
   simple_progress_accumulation.2 7 "w" [3, 4] (by decide) (by decide)⟩

/-! ### C6 -/

/-- C6: the worker `upload_one` is a total function of its oracles — any
transport exception is caught locally and becomes
`UploadResult{success: false, error: str(e)}` (second conjunct), and in
every case the last thing printed before returning is the tracker's
terminal done line whose success flag equals the returned result's success
flag (first conjunct). -/
theorem upload_one_local_catch :
    (∀ (fs : LocalFS) (tr : Transport) (ns bucket fp oname : String),
      ((upload_one fs tr ns bucket fp oname).2).getLast? =
        some (ProgressEvent.done (os_basename fp)
          (upload_one fs tr ns bucket fp oname).1.success)) ∧
    (∀ (fs : LocalFS) (tr : Transport) (ns bucket fp oname : String)
       (sz : Nat) (evs₀ : List ProgressEvent) (p₀ : SimpleProgress) (m : String),
      fs.getsize fp = Except.ok sz →
      runCallbacks (SimpleProgress.init (sz : Int) (os_basename fp))
        (tr.progressDeltas fp) = (evs₀, Except.ok p₀) →
      tr.upload ns bucket oname fp = Except.error m →
      upload_one fs tr ns bucket fp oname =
        (⟨os_basename fp, false, none, some m⟩,
         evs₀ ++ [ProgressEvent.done (os_basename fp) false])) := by
  constructor
  · intro fs tr ns bucket fp oname
    rcases hg : fs.getsize fp with e | sz
    · simp [upload_one, hg]
    · rcases hr : runCallbacks (SimpleProgress.init (sz : Int) (os_basename fp))
        (tr.progressDeltas fp) with ⟨evs, res⟩
      rcases res with e | p₂
      · simp [upload_one, hg, hr, List.getLast?_concat]
      · rcases hu : tr.upload ns bucket oname fp with e | etag
        · simp [upload_one, hg, hr, hu, List.getLast?_concat]
        · simp [upload_one, hg, hr, hu, List.getLast?_concat]
  · intro fs tr ns bucket fp oname sz evs₀ p₀ m hg hr hu
    simp [upload_one, hg, hr, hu, pyStr]

/-- C6 witness: a failing transport at a concrete file; the worker returns
the failure record and prints the FAILED done line instead of raising. -/
theorem upload_one_local_catch_witness :
    fsSingle.getsize "f.txt" = Except.ok 4 ∧
    runCallbacks (SimpleProgress.init (4 : Int) "f.txt")
      (trBoom.progressDeltas "f.txt") = ([], Except.ok (SimpleProgress.init 4 "f.txt")) ∧
    trBoom.upload "ns" "bucket" "p/f.txt" "f.txt" = Except.error "boom" ∧
    upload_one fsSingle trBoom "ns" "bucket" "f.txt" "p/f.txt" =
      (⟨"f.txt", false, none, some "boom"⟩, [ProgressEvent.done "f.txt" false]) :=
  ⟨rfl, by decide, rfl, by
    have h := upload_one_local_catch.2 fsSingle trBoom "ns" "bucket" "f.txt" "p/f.txt"
      4 [] (SimpleProgress.init 4 "f.txt") "boom" rfl (by decide) rfl
    exact h.trans (by decide)⟩

/-! ### C7 -/

/-- C7: `run_batch` attempts its external steps strictly in the order
create → upload → start → status (the attempted-step trace is always a
prefix of that sequence); when create raises, the trace stops at create
(neither upload nor start is attempted); when upload raises, the trace
stops at upload (start is never called). -/
theorem run_batch_step_order :
    ∀ (oci : Bool) (fs : LocalFS) (tr : Transport)
      (ir : Except String BatchInfo) (sr qr : String → Except String String)
      (ip : String),
      ((run_batch oci fs tr ir sr qr ip).1 = [BatchStep.create] ∨
       (run_batch oci fs tr ir sr qr ip).1 = [BatchStep.create, BatchStep.upload] ∨
       (run_batch oci fs tr ir sr qr ip).1 =
         [BatchStep.create, BatchStep.upload, BatchStep.start] ∨
       (run_batch oci fs tr ir sr qr ip).1 =
         [BatchStep.create, BatchStep.upload, BatchStep.start, BatchStep.status]) ∧
      (∀ e, ir = Except.error e →
        (run_batch oci fs tr ir sr qr ip).1 = [BatchStep.create]) ∧
      (∀ bi e, ir = Except.ok bi →
        upload_files oci fs tr bi.object_storage_url ip = Except.error e →
        (run_batch oci fs tr ir sr qr ip).1 = [BatchStep.create, BatchStep.upload]) := by
  intro oci fs tr ir sr qr ip
  cases ir with
  | error e =>
    exact ⟨Or.inl rfl, fun e h => rfl, fun bi e h => by simp at h⟩
  | ok bi =>
    cases hu : upload_files oci fs tr bi.object_storage_url ip with
    | error e =>
      refine ⟨Or.inr (Or.inl ?_), fun e h => by simp at h, fun bi₂ e h h₂ => ?_⟩
      · simp [run_batch, init_batch, request_wrapped, hu]
      · simp [run_batch, init_batch, request_wrapped, hu]
    | ok log =>
      refine ⟨?_, fun e h => by simp at h, fun bi₂ e h h₂ => ?_⟩
      · cases hs : sr bi.batch_id with
        | error e₂ =>
          refine Or.inr (Or.inr (Or.inl ?_))
          simp [run_batch, init_batch, start_batch, request_wrapped, hu, hs]
        | ok s₂ =>
          cases hq : qr bi.batch_id with
          | error e₃ =>
            refine Or.inr (Or.inr (Or.inr ?_))
            simp [run_batch, init_batch, start_batch, get_batch_status,
              request_wrapped, hu, hs, hq]
          | ok s₃ =>
            refine Or.inr (Or.inr (Or.inr ?_))
            simp [run_batch, init_batch, start_batch, get_batch_status,
              request_wrapped, hu, hs, hq]
      · injection h with hbi
        subst hbi
        rw [hu] at h₂
        simp at h₂

/-- C7 witness: the step-order theorem at a failing create call (trace stops
at create) and at a failing upload (trace stops at upload; here the upload
fails because the oci library is absent). -/
theorem run_batch_step_order_witness :
    (run_batch true fsSingle trOk (Except.error "api down")
      (fun _ => Except.ok "s") (fun _ => Except.ok "q") "f.txt").1 =
      [BatchStep.create] ∧
    (run_batch false fsSingle trOk (Except.ok ⟨urlFive, "42"⟩)
      (fun _ => Except.ok "s") (fun _ => Except.ok "q") "f.txt").1 =
      [BatchStep.create, BatchStep.upload] :=
  ⟨(run_batch_step_order true fsSingle trOk (Except.error "api down")
      (fun _ => Except.ok "s") (fun _ => Except.ok "q") "f.txt").2.1 "api down" rfl,
   (run_batch_step_order false fsSingle trOk (Except.ok ⟨urlFive, "42"⟩)
      (fun _ => Except.ok "s") (fun _ => Except.ok "q") "f.txt").2.2
      ⟨urlFive, "42"⟩ PyError.importError rfl rfl⟩

/-! ### More fixtures -/

/-- The target URL of the spec's concrete scenario, key prefix `prefix/`. -/
def urlSpec : String := "https://host/n/ns/b/bucket/o/prefix/"

/-- The session produced by uploading the single file `f.txt` to `urlFive`
on `fsSingle` with `trOk`. -/
def sessionSingle : SessionLog :=
  ⟨[("f.txt", "p/f.txt")],
   [⟨"f.txt", true, some "etag-1", none⟩],
   [ProgressEvent.done "f.txt" true], none⟩

/-- The session produced by uploading the single file `f.txt` to a
four-segment URL (key prefix `/`) on `fsSingle` with `trOk`. -/
def sessionFour : SessionLog :=
  ⟨[("f.txt", "/f.txt")],
   [⟨"f.txt", true, some "etag-1", none⟩],
   [ProgressEvent.done "f.txt" true], none⟩

/-- The session produced by uploading the missing path `missing.txt` to
`urlFive` on `fsMissing` with `trOk`. -/
def sessionMissing : SessionLog :=
  ⟨[("missing.txt", "p/missing.txt")],
   [⟨"missing.txt", false, none,
     some "[Errno 2] No such file or directory: missing.txt"⟩],
   [ProgressEvent.done "missing.txt" false], none⟩

/-- The session produced by uploading directory `D` of `fsDup` (whose two
files share the basename `a.txt`) to `urlFive` with `trOk`. -/
def sessionDup : SessionLog :=
  ⟨[("D/a.txt", "p/a.txt"), ("D/sub/a.txt", "p/sub/a.txt")],
   [⟨"a.txt", true, some "etag-1", none⟩, ⟨"a.txt", true, some "etag-1", none⟩],
   [ProgressEvent.done "a.txt" true, ProgressEvent.done "a.txt" true], none⟩

/-- The session produced by uploading directory `D` of `fsTree` to
`urlSpec` with `trOk` — the spec's concrete key-computation scenario. -/
def sessionTree : SessionLog :=
  ⟨[("D/a.txt", "prefix/a.txt"), ("D/sub/b.txt", "prefix/sub/b.txt")],
   [⟨"a.txt", true, some "etag-1", none⟩, ⟨"b.txt", true, some "etag-1", none⟩],
   [ProgressEvent.done "a.txt" true, ProgressEvent.done "b.txt" true], none⟩

/-- The session produced by uploading the single file `f.txt` to `urlSpec`
on `fsSingle` with `trOk`. -/
def sessionSingleSpec : SessionLog :=
  ⟨[("f.txt", "prefix/f.txt")],
   [⟨"f.txt", true, some "etag-1", none⟩],
   [ProgressEvent.done "f.txt" true], none⟩

/-! ### C1 -/

/-- C1 counterexample: a session that completes without raising, produces
an `UploadResult` internally, and still hands no `UploadSessionOutcome`
back to the caller — `upload_files` returns `None`. -/
theorem upload_files_returns_none_cex :
    upload_files true fsSingle trOk urlFive "f.txt" = Except.ok sessionSingle ∧
    sessionSingle.results ≠ [] ∧ sessionSingle.retVal = none :=
  ⟨rfl, by decide, rfl⟩

/-- C1 (amended): every `upload_files` call that completes without raising
produces exactly one `UploadResult` per dispatched unit and logs failures,
but returns `None` to its caller: no `UploadSessionOutcome` value (results
plus failureCount) is handed back to BatchOrchestrator. -/
theorem upload_files_result_collection :
    ∀ (oci : Bool) (fs : LocalFS) (tr : Transport) (url lp : String)
      (log : SessionLog),
      upload_files oci fs tr url lp = Except.ok log →
      log.results.length = log.units.length ∧ log.retVal = none := by
  intro oci fs tr url lp log h
  cases oci with
  | false => simp [upload_files] at h
  | true =>
    rcases hp : parse_upload_target url with e | t
    · simp [upload_files, hp] at h
    · obtain ⟨ns, bucket, pfx⟩ := t
      cases hd : fs.isDir lp with
      | false =>
        simp [upload_files, hp, hd] at h
        subst h
        exact ⟨rfl, rfl⟩
      | true =>
        simp [upload_files, hp, hd] at h
        subst h
        simp
/-- C1 witness: the amended theorem at the concrete single-file session. -/
theorem upload_files_result_collection_witness :
    upload_files true fsSingle trOk urlFive "f.txt" = Except.ok sessionSingle ∧
    (sessionSingle.results.length = sessionSingle.units.length ∧
     sessionSingle.retVal = none) :=
  ⟨rfl, upload_files_result_collection true fsSingle trOk urlFive "f.txt"
    sessionSingle rfl⟩

/-! ### C2 -/

/-- C2 counterexample: a target URL whose path has exactly 4 segments —
fewer than the 5 the claim requires for success — does not raise at all:
the worker runs, the upload completes (with key prefix `/`), and a
progress line is printed. -/
theorem four_segment_url_no_raise_cex :
    (path_segments "https://host/n/ns/b/bucket").length = 4 ∧
    (4 : Nat) < 5 ∧
    upload_files true fsSingle trOk "https://host/n/ns/b/bucket" "f.txt" =
      Except.ok sessionFour ∧
    sessionFour.events ≠ [] :=
  ⟨by decide, by decide, rfl, by decide⟩

/-- C2 (amended): a target URL whose path has fewer than 4 segments makes
`upload_files` raise IndexError before any UploadWorker runs, with zero
progress lines emitted; with 4 segments the two indexed accesses
`path_parts[1]` and `path_parts[3]` already succeed, so parsing goes
through (see the counterexample). -/
theorem malformed_url_raises :
    ∀ (url : String) (fs : LocalFS) (tr : Transport) (lp : String),
      (path_segments url).length < 4 →
      upload_files true fs tr url lp = Except.error PyError.indexError ∧
      upload_files_output true fs tr url lp = [] := by
  intro url fs tr lp h
  have h3 : (path_segments url).get? 3 = none := by
    rw [List.get?_eq_none]
    omega
  have hp : parse_upload_target url = Except.error PyError.indexError := by
    simp only [parse_upload_target]
    rw [h3]
    rcases h1 : (path_segments url).get? 1 with _ | v <;> rfl
  exact ⟨by simp [upload_files, hp], by simp [upload_files_output, upload_files, hp]⟩

/-- C2 witness: the amended theorem at a two-segment URL. -/
theorem malformed_url_raises_witness :
    (path_segments "https://host/n/ns").length < 4 ∧
    (upload_files true fsSingle trOk "https://host/n/ns" "f.txt" =
      Except.error PyError.indexError ∧
     upload_files_output true fsSingle trOk "https://host/n/ns" "f.txt" = []) :=
  ⟨by decide, malformed_url_raises "https://host/n/ns" fsSingle trOk "f.txt" (by decide)⟩

/-! ### C3 -/

/-- C3 counterexample: a localPath that does not exist is not a hard
error.  `os.path.isdir` is false, so the path is treated as a single file;
the worker catches the `OSError` from `os.path.getsize`, and
`upload_files` completes normally with one failed per-file result. -/
theorem missing_local_path_no_raise_cex :
    fsMissing.isDir "missing.txt" = false ∧
    fsMissing.getsize "missing.txt" =
      Except.error "[Errno 2] No such file or directory: missing.txt" ∧
    upload_files true fsMissing trOk urlFive "missing.txt" =
      Except.ok sessionMissing :=
  ⟨rfl, rfl, rfl⟩

/-- C3 (amended): a localPath that does not exist (not a directory, and
`getsize` raising) is handled as a single-file upload whose worker catches
the filesystem error: `upload_files` returns normally with a single
`UploadResult{success: false, error: <message>}` and a FAILED terminal
progress line — it raises no hard error to its caller. -/
theorem missing_local_path_soft_failure :
    ∀ (fs : LocalFS) (tr : Transport) (url lp : String)
      (t : String × String × String) (e : String),
      parse_upload_target url = Except.ok t →
      fs.isDir lp = false →
      fs.getsize lp = Except.error e →
      upload_files true fs tr url lp =
        Except.ok ⟨[(lp, t.2.2 ++ os_basename lp)],
          [⟨os_basename lp, false, none, some e⟩],
          [ProgressEvent.done (os_basename lp) false], none⟩ := by
  intro fs tr url lp t e hp hd hg
  obtain ⟨ns, bucket, pfx⟩ := t
  simp [upload_files, hp, hd, upload_one, hg, pyStr]

/-- C3 witness: the amended theorem at the concrete missing path. -/
theorem missing_local_path_soft_failure_witness :
    parse_upload_target urlFive = Except.ok ("ns", "bucket", "p/") ∧
    fsMissing.isDir "missing.txt" = false ∧
    fsMissing.getsize "missing.txt" =
      Except.error "[Errno 2] No such file or directory: missing.txt" ∧
    upload_files true fsMissing trOk urlFive "missing.txt" =
      Except.ok sessionMissing :=
  ⟨rfl, rfl, rfl, by
    have h := missing_local_path_soft_failure fsMissing trOk urlFive "missing.txt"
      ("ns", "bucket", "p/") "[Errno 2] No such file or directory: missing.txt"
      rfl rfl rfl
    exact h.trans (by decide)⟩

/-! ### C4 -/

/-- C4 counterexample: a directory with two files whose basenames collide
(`a.txt` and `sub/a.txt`) produces the claimed N = 2 results, but their
`filename` fields are `["a.txt", "a.txt"]` — not distinct, because the
worker records `os.path.basename(file_path)`, not the relative path. -/
theorem dir_upload_duplicate_filenames_cex :
    fsDup.isDir "D" = true ∧
    (fsDup.walk "D").length = 2 ∧
    upload_files true fsDup trOk urlFive "D" = Except.ok sessionDup ∧
    sessionDup.results.map UploadResult.file = ["a.txt", "a.txt"] ∧
    ¬ (sessionDup.results.map UploadResult.file).Nodup :=
  ⟨rfl, rfl, rfl, rfl, by decide⟩

/-- The `file` field of a worker's result is always the basename of the
local path it was dispatched on, whatever the outcome. -/
theorem upload_one_file (fs : LocalFS) (tr : Transport) (ns bucket fp oname : String) :
    (upload_one fs tr ns bucket fp oname).1.file = os_basename fp := by
  rcases hg : fs.getsize fp with e | sz
  · simp [upload_one, hg]
  · rcases hr : runCallbacks (SimpleProgress.init (sz : Int) (os_basename fp))
      (tr.progressDeltas fp) with ⟨evs, res⟩
    rcases res with e | p₂
    · simp [upload_one, hg, hr]
    · rcases hu : tr.upload ns bucket oname fp with e | etag
      · simp [upload_one, hg, hr, hu]
      · simp [upload_one, hg, hr, hu]

/-- C4 (amended): uploading a directory D with N regular files produces
exactly N `UploadResult` entries, the i-th carrying the basename of the
i-th file under D — one result per file in every traversal order, but the
`filename` fields are basenames and need not be pairwise distinct (see the
counterexample). -/
theorem dir_upload_cardinality :
    ∀ (fs : LocalFS) (tr : Transport) (url lp : String) (log : SessionLog),
      fs.isDir lp = true →
      upload_files true fs tr url lp = Except.ok log →
      log.results.length = (fs.walk lp).length ∧
      log.results.map UploadResult.file = (fs.walk lp).map os_basename := by
  intro fs tr url lp log hd h
  rcases hp : parse_upload_target url with e | t
  · simp [upload_files, hp] at h
  · obtain ⟨ns, bucket, pfx⟩ := t
    simp [upload_files, hp, hd] at h
    subst h
    constructor
    · simp
    · simp [List.map_map, Function.comp_def, upload_one_file]

/-- C4 witness: the amended theorem at the spec's two-file directory. -/
theorem dir_upload_cardinality_witness :
    fsTree.isDir "D" = true ∧
    upload_files true fsTree trOk urlSpec "D" = Except.ok sessionTree ∧
    (sessionTree.results.length = (fsTree.walk "D").length ∧
     sessionTree.results.map UploadResult.file = (fsTree.walk "D").map os_basename) :=
  ⟨rfl, rfl, dir_upload_cardinality fsTree trOk urlSpec "D" sessionTree rfl rfl⟩

/-! ### C5 -/

/-- C5: every parsed upload target has a key prefix ending in `/`; a
single-file session dispatches exactly the unit
`(localPath, keyPrefix ++ basename(localPath))`; a directory session
dispatches, for each file of the traversal, the unit
`(file, keyPrefix ++ relativePath(file, localPath))` with separators
normalized to forward slashes. -/
theorem object_key_computation :
    (∀ (url : String) (t : String × String × String),
      parse_upload_target url = Except.ok t → ∃ s, t.2.2 = s ++ "/") ∧
    (∀ (fs : LocalFS) (tr : Transport) (url lp : String)
       (t : String × String × String) (log : SessionLog),
      parse_upload_target url = Except.ok t →
      fs.isDir lp = false →
      upload_files true fs tr url lp = Except.ok log →
      log.units = [(lp, t.2.2 ++ os_basename lp)]) ∧
    (∀ (fs : LocalFS) (tr : Transport) (url lp : String)
       (t : String × String × String) (log : SessionLog),
      parse_upload_target url = Except.ok t →
      fs.isDir lp = true →
      upload_files true fs tr url lp = Except.ok log →
      log.units = (fs.walk lp).map (fun fp =>
        (fp, t.2.2 ++ replace_backslashes (os_relpath fp lp)))) := by
  refine ⟨?_, ?_, ?_⟩
  · intro url t h
    simp only [parse_upload_target] at h
    rcases h1 : (path_segments url).get? 1 with _ | ns
    · rw [h1] at h
      simp at h
    · rcases h3 : (path_segments url).get? 3 with _ | bucket
      · rw [h1, h3] at h
        simp at h
      · rw [h1, h3] at h
        refine ⟨py_rstrip_slashes (String.mk (join_char '/'
          (((path_segments url).drop 5).map String.toList))), ?_⟩
        injection h with h₂
        rw [← h₂]
  · intro fs tr url lp t log hp hd h
    obtain ⟨ns, bucket, pfx⟩ := t
    simp [upload_files, hp, hd] at h
    subst h
    rfl
  · intro fs tr url lp t log hp hd h
    obtain ⟨ns, bucket, pfx⟩ := t
    simp [upload_files, hp, hd] at h
    subst h
    rfl

/-- C5 witness: the spec's concrete scenario.  The target URL with path
`/n/ns/b/bucket/o/prefix/` parses to key prefix `prefix/` (ending in a
slash); uploading directory D = {a.txt, sub/b.txt} dispatches object keys
`prefix/a.txt` and `prefix/sub/b.txt`; uploading the single file `f.txt`
dispatches `prefix/f.txt`. -/
theorem object_key_computation_witness :
    parse_upload_target urlSpec = Except.ok ("ns", "bucket", "prefix/") ∧
    (∃ s, (("ns", "bucket", "prefix/") : String × String × String).2.2 = s ++ "/") ∧
    fsTree.isDir "D" = true ∧
    upload_files true fsTree trOk urlSpec "D" = Except.ok sessionTree ∧
    sessionTree.units = [("D/a.txt", "prefix/a.txt"), ("D/sub/b.txt", "prefix/sub/b.txt")] ∧
    upload_files true fsSingle trOk urlSpec "f.txt" = Except.ok sessionSingleSpec ∧
    sessionSingleSpec.units = [("f.txt", "prefix/f.txt")] :=
  ⟨rfl, object_key_computation.1 urlSpec ("ns", "bucket", "prefix/") rfl, rfl, rfl,
   by
     have h := object_key_computation.2.2 fsTree trOk urlSpec "D"
       ("ns", "bucket", "prefix/") sessionTree rfl rfl rfl
     exact h.trans (by decide),
   rfl,
   by
     have h := object_key_computation.2.1 fsSingle trOk urlSpec "f.txt"
       ("ns", "bucket", "prefix/") sessionSingleSpec rfl rfl rfl
     exact h.trans (by decide)⟩

/-! ### C8 -/

/-- C8 counterexample: `download_results` can raise to its caller — when
the results metadata carries no PAR URL it raises
`ValueError("No PAR URL found for this batch.")` before touching any
file. -/
theorem download_results_raises_cex :
    download_results true (Except.ok ⟨["out.tif"], none⟩)
      (fun _ => Except.ok "DATA") "downloads" =
      Except.error (PyError.valueError "No PAR URL found for this batch.") := rfl

/-- C8 (amended): once `get_results` has succeeded and a non-empty PAR URL
is present, `download_results` returns normally whatever the per-file
fetches do; a file whose fetch fails contributes only its two log lines —
the failure is logged, no write event is produced for it, and the loop
continues with the next file — while a successful fetch writes the file
under the output directory. -/
theorem download_results_per_file_containment :
    ∀ (oci : Bool) (files : List String) (pu : String)
      (fetch : String → Except String String) (od : String),
      pu ≠ "" →
      (download_results oci (Except.ok ⟨files, some pu⟩) fetch od =
        Except.ok ((files.map (download_file_events fetch pu od)).flatten)) ∧
      (∀ name e, fetch (url_join pu name) = Except.error e →
        download_file_events fetch pu od name =
          [DlEvent.logInfo ("Downloading " ++ name ++ "..."),
           DlEvent.logError ("Failed to download " ++ name ++ ": " ++ e)] ∧
        ∀ p c, DlEvent.write p c ∉ download_file_events fetch pu od name) ∧
      (∀ name c, fetch (url_join pu name) = Except.ok c →
        download_file_events fetch pu od name =
          [DlEvent.logInfo ("Downloading " ++ name ++ "..."),
           DlEvent.write (os_path_join od name) c,
           DlEvent.logInfo ("Saved to " ++ os_path_join od name)]) := by
  intro oci files pu fetch od hpu
  refine ⟨?_, ?_, ?_⟩
  · simp [download_results, get_results, request_wrapped, hpu]
  · intro name e hf
    constructor
    · simp [download_file_events, hf]
    · intro p c
      simp [download_file_events, hf]
  · intro name c hf
    simp [download_file_events, hf]

/-- The fetch oracle of the C8 witness: the spec scenario's `out.tif`
fails with a network error, everything else succeeds. -/
def fetchPar : String → Except String String :=
  fun u => if u = "https://par/out.tif" then Except.error "net down" else Except.ok "DATA"

/-- C8 witness: the amended theorem at the spec's download scenario with
base access URL `https://par/`, a failing `out.tif` and a succeeding
`b.tif`. -/
theorem download_results_per_file_containment_witness :
    ("https://par/" : String) ≠ "" ∧
    fetchPar (url_join "https://par/" "out.tif") = Except.error "net down" ∧
    fetchPar (url_join "https://par/" "b.tif") = Except.ok "DATA" ∧
    download_results true (Except.ok ⟨["out.tif", "b.tif"], some "https://par/"⟩)
      fetchPar "downloads" =
      Except.ok ((["out.tif", "b.tif"].map
        (download_file_events fetchPar "https://par/" "downloads")).flatten) ∧
    download_file_events fetchPar "https://par/" "downloads" "out.tif" =
      [DlEvent.logInfo "Downloading out.tif...",
       DlEvent.logError "Failed to download out.tif: net down"] ∧
    DlEvent.write "downloads/out.tif" "DATA" ∉
      download_file_events fetchPar "https://par/" "downloads" "out.tif" ∧
    download_file_events fetchPar "https://par/" "downloads" "b.tif" =
      [DlEvent.logInfo "Downloading b.tif...",
       DlEvent.write "downloads/b.tif" "DATA",
       DlEvent.logInfo "Saved to downloads/b.tif"] :=
  ⟨by decide, by decide, by decide,
   (download_results_per_file_containment true ["out.tif", "b.tif"] "https://par/"
     fetchPar "downloads" (by decide)).1,
   by
     have h := ((download_results_per_file_containment true ["out.tif", "b.tif"]
       "https://par/" fetchPar "downloads" (by decide)).2.1 "out.tif" "net down"
       (by decide)).1
     exact h.trans (by decide),
   ((download_results_per_file_containment true ["out.tif", "b.tif"]
     "https://par/" fetchPar "downloads" (by decide)).2.1 "out.tif" "net down"
     (by decide)).2 "downloads/out.tif" "DATA",
   by
     have h := (download_results_per_file_containment true ["out.tif", "b.tif"]
       "https://par/" fetchPar "downloads" (by decide)).2.2 "b.tif" "DATA"
       (by decide)
     exact h.trans (by decide)⟩
